import Mathlib

/-!
Shallow embedding of `src/src/app.ts` (an Express upload gateway in two
variants: a naive upload route, and an improved route built from
`apiKeyGuard`, a multer-s3 upload middleware and `waitCidWithBackoff`).

Modelling conventions:
* A backend (the S3 client answering `HeadObjectCommand` for the fixed
  bucket/key of one upload) is a function `Nat → Except Unit (Option S3Metadata)`:
  the value at `n` is what the `n`-th `s3.send` does — `.error ()` for a
  thrown/rejected call, `.ok md` for a response whose optional `Metadata`
  mapping is `md`.
* Attempts are instantaneous; wall-clock time advances only through the
  `setTimeout` sleeps, so `elapsed` is the sum of the sleeps performed so far.
* JavaScript truthiness of `string | undefined | null` values is modelled
  explicitly (`jsOr`, the `≠ ""` tests, `jsTemplate`).
* The `while` loops are written with explicit fuel; exhausting the fuel is a
  modelling artifact returning `none`, proved unreachable for the fuel the
  top-level entry points supply (`waitLoop_total`).
-/

/-- JS `a || b` for `a : string | undefined` with a string fallback `b`:
yields `a` when `a` is a truthy (non-empty) string, else `b`. -/
def jsOr (a : Option String) (b : String) : String :=
  match a with
  | some s => if s = "" then b else s
  | none => b

/-- JS `String.prototype.trim()`: strips whitespace from both ends (modelled
over the ASCII whitespace characters recognised by `Char.isWhitespace`).
Written with structural `List.dropWhile` recursion so the kernel can
evaluate it. -/
def trimStr (s : String) : String :=
  String.mk (((s.data.dropWhile Char.isWhitespace).reverse.dropWhile Char.isWhitespace).reverse)

/-- The object metadata mapping as the code reads it: the three case-variant
keys `cid`, `CID`, `Cid` are independent optional entries (app.ts:250-251;
JS property access is case-sensitive). -/
structure S3Metadata where
  cid : Option String
  CID : Option String
  Cid : Option String
deriving DecidableEq

/-- The `||` chain `head.Metadata?.cid || head.Metadata?.CID || head.Metadata?.Cid || ""`
(app.ts:250-251); `md = none` models an absent `Metadata` field. -/
def selectCid (md : Option S3Metadata) : String :=
  jsOr (Option.bind md S3Metadata.cid)
    (jsOr (Option.bind md S3Metadata.CID)
      (jsOr (Option.bind md S3Metadata.Cid) ""))

/-- One poll attempt (app.ts:245-257): a thrown `s3.send` is caught and
ignored; otherwise the selected cid is returned iff it is truthy and
non-blank after trimming (`if (cid && cid.trim().length > 0)`). -/
def extractCid (resp : Except Unit (Option S3Metadata)) : Option String :=
  match resp with
  | Except.error _ => none
  | Except.ok md =>
    let c := selectCid md
    if c ≠ "" ∧ 0 < (trimStr c).length then some (trimStr c) else none

/-- Trace of one run of the polling loop: the returned value (`some cid` or
`none` for the `return null` timeout exit), the elapsed time at the return,
and the list of sleep durations performed, in order. -/
structure PollRun where
  result : Option String
  elapsed : Nat
  sleeps : List Nat
deriving DecidableEq

/-- The `while (Date.now() - started < maxWaitMs)` loop of
`waitCidWithBackoff` (app.ts:244-263), with explicit fuel. Each iteration
polls once; on failure it sleeps `delay` and doubles the delay, capping it at
4000 (app.ts:259-260). `none` means the fuel ran out while the loop guard
still held (never happens for the fuel `waitCidRun` supplies). -/
def waitLoop (backend : Nat → Except Unit (Option S3Metadata)) (maxWaitMs : Nat) :
    Nat → Nat → Nat → Nat → Option PollRun
  | 0, _, elapsed, _ =>
    if elapsed < maxWaitMs then none else some ⟨none, elapsed, []⟩
  | fuel + 1, attempt, elapsed, delay =>
    if elapsed < maxWaitMs then
      match extractCid (backend attempt) with
      | some c => some ⟨some c, elapsed, []⟩
      | none =>
        match waitLoop backend maxWaitMs fuel (attempt + 1) (elapsed + delay)
            (min (delay * 2) 4000) with
        | some r => some ⟨r.result, r.elapsed, delay :: r.sleeps⟩
        | none => none
    else some ⟨none, elapsed, []⟩

/-- Full run of `waitCidWithBackoff(bucket, key, { maxWaitMs })`
(app.ts:236-264): `started` is time 0, the first delay is 500
(app.ts:241-242). The fuel `maxWaitMs / 500 + 1` bounds the iteration count,
since every sleep lasts at least 500 ms (`waitLoop_total`). -/
def waitCidRun (backend : Nat → Except Unit (Option S3Metadata)) (maxWaitMs : Nat) :
    Option PollRun :=
  waitLoop backend maxWaitMs (maxWaitMs / 500 + 1) 0 0 500

/-- The value `waitCidWithBackoff` resolves to: the found cid, or `null`
(modelled `none`) on timeout (app.ts:263). -/
def waitCidWithBackoff (backend : Nat → Except Unit (Option S3Metadata))
    (maxWaitMs : Nat) : Option String :=
  match waitCidRun backend maxWaitMs with
  | some r => r.result
  | none => none

/-- The intended backoff-delay schedule: the delay slept after the `k`-th
failed attempt; mirrors the update rule `delay = Math.min(delay * 2, 4000)`
starting from 500 (app.ts:242,260). -/
def backoffSeq : Nat → Nat
  | 0 => 500
  | k + 1 => min (backoffSeq k * 2) 4000

/-- One `POST /upload` request as the handlers see it: the `x-api-key`
header (absent = `none`) and the multipart file's `originalname`
(absent = `none`, i.e. `req.file` is `undefined`). -/
structure UploadRequest where
  xApiKey : Option String
  file : Option String
deriving DecidableEq

/-- A thrown JS error as the handlers inspect it: only `err?.message`
matters (app.ts:310, 322); `none` models a missing/undefined message. -/
structure JsError where
  message : Option String
deriving DecidableEq

/-- The error description placed in 500 bodies:
`err?.message || "unknown_error"` (app.ts:310, 322). -/
def errDesc (e : JsError) : String :=
  jsOr e.message "unknown_error"

/-- JSON response bodies of the improved variant, by shape:
the 401 auth body (app.ts:201-203), the `{ data: { file, url } }` body
(app.ts:302, 306), the handler's catch body (app.ts:308-311), and the
global error handler's body (app.ts:320-323). -/
inductive RespBody
  | authFail
  | uploadData (file : Option String) (url : String)
  | uploadErr (error : String)
  | globalErr (error : String)
deriving DecidableEq

/-- An HTTP response: status code plus JSON body. -/
structure HttpResponse where
  status : Nat
  body : RespBody
deriving DecidableEq

/-- The `apiKeyGuard` middleware test (app.ts:198-206): `true` means the
guard responds 401 and stops the chain. `!APIKEY` is JS string falsiness
(`APIKEY = ""`); `apiKey !== APIKEY` is strict inequality between
`string | undefined` and `string`. -/
def apiKeyGuard (APIKEY : String) (req : UploadRequest) : Bool :=
  APIKEY == "" || !(req.xApiKey == some APIKEY)

/-- The improved `/upload` handler body after the middlewares have run
(app.ts:285-306): `responseData.url` is reset to `""`, the poller runs with
`maxWaitMs = 45_000`, and `if (cid)` (non-null, non-empty) selects the 200
response with `url = cid`, else the 504 response with `url = ""`. -/
def uploadHandler (backend : Nat → Except Unit (Option S3Metadata))
    (req : UploadRequest) : HttpResponse :=
  match waitCidWithBackoff backend 45000 with
  | some cid =>
    if cid ≠ "" then ⟨200, RespBody.uploadData req.file cid⟩
    else ⟨504, RespBody.uploadData req.file ""⟩
  | none => ⟨504, RespBody.uploadData req.file ""⟩

/-- Keys written to the object store by the multer-s3 middleware for one
request: the file's `originalname` when a file field is present
(app.ts:220-223), nothing otherwise. -/
def writesOf (req : UploadRequest) : List String :=
  match req.file with
  | some f => [f]
  | none => []

/-- The improved variant's `POST /upload` middleware chain
(app.ts:285-313, 317-325): `apiKeyGuard`, then the multer-s3 write
(`write = .error e` models a failing write, routed to the global error
handler), then the handler's `try` block — `handlerExn = some e` models an
exception thrown inside the `try`, converted by the `catch` at
app.ts:307-312. Returns the response and the list of storage writes
performed. -/
def processUpload (APIKEY : String) (req : UploadRequest)
    (write : Except JsError Unit) (handlerExn : Option JsError)
    (backend : Nat → Except Unit (Option S3Metadata)) :
    HttpResponse × List String :=
  if apiKeyGuard APIKEY req then (⟨401, RespBody.authFail⟩, [])
  else
    match write with
    | Except.error e => (⟨500, RespBody.globalErr (errDesc e)⟩, [])
    | Except.ok _ =>
      match handlerExn with
      | some e => (⟨500, RespBody.uploadErr (errDesc e)⟩, writesOf req)
      | none => (uploadHandler backend req, writesOf req)

/-- JS template-literal interpolation of a `string | undefined` value:
`` `${x}` `` stringifies `undefined` to `"undefined"` (app.ts:125). -/
def jsTemplate : Option String → String
  | none => "undefined"
  | some s => s

/-- The naive variant's `while (responseData.url == "")` loop
(app.ts:118-131) with explicit fuel. `backend n` is `response.Metadata?.cid`
of the `n`-th successful `GetObjectCommand`. Each iteration assigns
`` url = `${cid}` `` and returns the `{ data }` response as soon as
`url != ""`; `none` means the loop was still running when the fuel ran
out. -/
def naiveLoop (backend : Nat → Option String) : Nat → Nat → Option String
  | _, 0 => none
  | attempt, fuel + 1 =>
    let url := jsTemplate (backend attempt)
    if url ≠ "" then some url
    else naiveLoop backend (attempt + 1) fuel

/-- Outcome of the naive `/upload` handler body. -/
inductive NaiveOutcome
  | unauthorized
  | responded (url : String)
  | hung
deriving DecidableEq

/-- The naive `/upload` handler (app.ts:98-133), which runs after the multer
write: `KEY1` is `process.env.KEY1` (`none` when unset), the auth test is
loose `APIKEY != apiKey` on `string | undefined` values, and on success the
handler enters the unbounded wait loop. -/
def naiveUploadHandler (KEY1 : Option String) (req : UploadRequest)
    (backend : Nat → Option String) (fuel : Nat) : NaiveOutcome :=
  if KEY1 ≠ req.xApiKey then NaiveOutcome.unauthorized
  else
    match naiveLoop backend 0 fuel with
    | some url => NaiveOutcome.responded url
    | none => NaiveOutcome.hung

example : extractCid (Except.ok (some ⟨some " bafy123 ", none, none⟩)) = some "bafy123" := by decide
example : extractCid (Except.ok (some ⟨some " ", some "abc", none⟩)) = none := by decide
example : extractCid (Except.error ()) = none := by decide
example : waitCidRun (fun _ => Except.ok none) 1000 = some ⟨none, 1500, [500, 1000]⟩ := by decide
example : waitCidWithBackoff (fun _ => Except.ok (some ⟨none, some "abc", none⟩)) 1000 = some "abc" := by decide

/-! ### Lemmas about the polling loop -/

lemma length_pos_of_ne_empty (s : String) (h : s ≠ "") : 0 < s.length := by
  cases s with
  | mk data =>
    cases data with
    | nil => exact absurd rfl h
    | cons a l => simp [String.length]

lemma ne_empty_of_length_pos (s : String) (h : 0 < s.length) : s ≠ "" := by
  intro hs
  rw [hs] at h
  simp [String.length] at h

lemma extractCid_ne_empty (resp : Except Unit (Option S3Metadata)) (c : String)
    (h : extractCid resp = some c) : c ≠ "" := by
  cases resp with
  | error e => simp [extractCid] at h
  | ok md =>
    simp only [extractCid] at h
    by_cases hc : selectCid md ≠ "" ∧ 0 < (trimStr (selectCid md)).length
    · rw [if_pos hc] at h
      obtain rfl : trimStr (selectCid md) = c := by injection h
      exact ne_empty_of_length_pos _ hc.2
    · rw [if_neg hc] at h
      exact absurd h (by simp)

lemma waitLoop_total (backend : Nat → Except Unit (Option S3Metadata)) (m : Nat) :
    ∀ fuel attempt elapsed delay, 500 ≤ delay → m ≤ elapsed + 500 * fuel →
      ∃ r, waitLoop backend m fuel attempt elapsed delay = some r := by
  intro fuel
  induction fuel with
  | zero =>
    intro a e d _ hfu
    refine ⟨⟨none, e, []⟩, ?_⟩
    simp only [waitLoop]
    rw [if_neg (by omega)]
  | succ fuel ih =>
    intro a e d hd hfu
    by_cases hel : e < m
    · cases hx : extractCid (backend a) with
      | some c =>
        refine ⟨⟨some c, e, []⟩, ?_⟩
        simp only [waitLoop]
        rw [if_pos hel, hx]
      | none =>
        obtain ⟨r, hr⟩ := ih (a + 1) (e + d) (min (d * 2) 4000)
          (Nat.le_min.mpr ⟨by omega, by omega⟩) (by omega)
        refine ⟨⟨r.result, r.elapsed, d :: r.sleeps⟩, ?_⟩
        simp only [waitLoop]
        rw [if_pos hel, hx, hr]
    · refine ⟨⟨none, e, []⟩, ?_⟩
      simp only [waitLoop]
      rw [if_neg hel]

lemma waitLoop_timeout (backend : Nat → Except Unit (Option S3Metadata)) (m : Nat)
    (hfail : ∀ n, extractCid (backend n) = none) :
    ∀ fuel attempt elapsed delay, 500 ≤ delay → delay ≤ 4000 →
      m ≤ elapsed + 500 * fuel → elapsed < m + 4000 →
      ∃ r, waitLoop backend m fuel attempt elapsed delay = some r ∧
        r.result = none ∧ m ≤ r.elapsed ∧ r.elapsed < m + 4000 := by
  intro fuel
  induction fuel with
  | zero =>
    intro a e d _ _ hfu he
    refine ⟨⟨none, e, []⟩, ?_, rfl, show m ≤ e by omega, show e < m + 4000 from he⟩
    simp only [waitLoop]
    rw [if_neg (by omega)]
  | succ fuel ih =>
    intro a e d hd1 hd2 hfu he
    by_cases hel : e < m
    · obtain ⟨r, hr, hres, hlb, hub⟩ := ih (a + 1) (e + d) (min (d * 2) 4000)
        (Nat.le_min.mpr ⟨by omega, by omega⟩) (Nat.min_le_right _ _)
        (by omega) (by omega)
      refine ⟨⟨r.result, r.elapsed, d :: r.sleeps⟩, ?_, hres, hlb, hub⟩
      simp only [waitLoop]
      rw [if_pos hel, hfail a, hr]
    · refine ⟨⟨none, e, []⟩, ?_, rfl, show m ≤ e by omega, show e < m + 4000 from he⟩
      simp only [waitLoop]
      rw [if_neg hel]

lemma waitLoop_congr (b1 b2 : Nat → Except Unit (Option S3Metadata)) (m : Nat)
    (hb : ∀ i, extractCid (b1 i) = extractCid (b2 i)) :
    ∀ fuel attempt elapsed delay,
      waitLoop b1 m fuel attempt elapsed delay = waitLoop b2 m fuel attempt elapsed delay := by
  intro fuel
  induction fuel with
  | zero => intro a e d; simp only [waitLoop]
  | succ fuel ih =>
    intro a e d
    simp only [waitLoop, hb, ih]

lemma waitLoop_found_ne_empty (backend : Nat → Except Unit (Option S3Metadata)) (m : Nat) :
    ∀ fuel attempt elapsed delay r c,
      waitLoop backend m fuel attempt elapsed delay = some r →
      r.result = some c → c ≠ "" := by
  intro fuel
  induction fuel with
  | zero =>
    intro a e d r c hr hres
    simp only [waitLoop] at hr
    by_cases hel : e < m
    · rw [if_pos hel] at hr
      exact absurd hr (by simp)
    · rw [if_neg hel] at hr
      obtain rfl : PollRun.mk none e [] = r := by injection hr
      simp at hres
  | succ fuel ih =>
    intro a e d r c hr hres
    simp only [waitLoop] at hr
    by_cases hel : e < m
    · rw [if_pos hel] at hr
      cases hx : extractCid (backend a) with
      | some c' =>
        rw [hx] at hr
        obtain rfl : PollRun.mk (some c') e [] = r := by injection hr
        obtain rfl : c' = c := by injection hres
        exact extractCid_ne_empty _ _ hx
      | none =>
        rw [hx] at hr
        cases hrec : waitLoop backend m fuel (a + 1) (e + d) (min (d * 2) 4000) with
        | none => rw [hrec] at hr; exact absurd hr (by simp)
        | some r' =>
          rw [hrec] at hr
          obtain rfl : PollRun.mk r'.result r'.elapsed (d :: r'.sleeps) = r := by injection hr
          exact ih _ _ _ r' c hrec hres
    · rw [if_neg hel] at hr
      obtain rfl : PollRun.mk none e [] = r := by injection hr
      simp at hres

lemma backoffSeq_succ (k : Nat) : backoffSeq (k + 1) = min (backoffSeq k * 2) 4000 := rfl

lemma backoffSeq_add_three (k : Nat) : backoffSeq (k + 3) = 4000 := by
  induction k with
  | zero => decide
  | succ k ih =>
    have : k + 1 + 3 = (k + 3) + 1 := by omega
    rw [this, backoffSeq_succ, ih]
    decide

lemma backoffSeq_of_ge_three (k : Nat) (hk : 3 ≤ k) : backoffSeq k = 4000 := by
  obtain ⟨j, rfl⟩ : ∃ j, k = j + 3 := ⟨k - 3, by omega⟩
  exact backoffSeq_add_three j

lemma waitLoop_sleeps (backend : Nat → Except Unit (Option S3Metadata)) (m : Nat) :
    ∀ fuel attempt elapsed k r,
      waitLoop backend m fuel attempt elapsed (backoffSeq k) = some r →
      ∀ i (hi : i < r.sleeps.length), r.sleeps.get ⟨i, hi⟩ = backoffSeq (k + i) := by
  intro fuel
  induction fuel with
  | zero =>
    intro a e k r hr i hi
    simp only [waitLoop] at hr
    by_cases hel : e < m
    · rw [if_pos hel] at hr
      exact absurd hr (by simp)
    · rw [if_neg hel] at hr
      obtain rfl : PollRun.mk none e [] = r := by injection hr
      simp at hi
  | succ fuel ih =>
    intro a e k r hr i hi
    simp only [waitLoop] at hr
    by_cases hel : e < m
    · rw [if_pos hel] at hr
      cases hx : extractCid (backend a) with
      | some c =>
        rw [hx] at hr
        obtain rfl : PollRun.mk (some c) e [] = r := by injection hr
        simp at hi
      | none =>
        rw [hx, ← backoffSeq_succ k] at hr
        cases hrec : waitLoop backend m fuel (a + 1) (e + backoffSeq k) (backoffSeq (k + 1)) with
        | none => rw [hrec] at hr; exact absurd hr (by simp)
        | some r' =>
          rw [hrec] at hr
          obtain rfl : PollRun.mk r'.result r'.elapsed (backoffSeq k :: r'.sleeps) = r := by
            injection hr
          cases i with
          | zero => simp [List.get]
          | succ i =>
            have hi' : i < r'.sleeps.length := by
              simpa using hi
            have := ih (a + 1) (e + backoffSeq k) (k + 1) r' hrec i hi'
            simpa [List.get, Nat.add_assoc, Nat.add_comm 1 i] using this
    · rw [if_neg hel] at hr
      obtain rfl : PollRun.mk none e [] = r := by injection hr
      simp at hi

lemma waitCidRun_found_first (backend : Nat → Except Unit (Option S3Metadata))
    (m : Nat) (c : String) (hm : 0 < m) (h0 : extractCid (backend 0) = some c) :
    waitCidRun backend m = some ⟨some c, 0, []⟩ := by
  unfold waitCidRun
  simp only [waitLoop]
  rw [if_pos hm, h0]

lemma waitCid_fuel_arith (m : Nat) : m ≤ 0 + 500 * (m / 500 + 1) := by omega

lemma jsOr_falsy (a : Option String) (b : String) (h : a = none ∨ a = some "") :
    jsOr a b = b := by
  cases h with
  | inl h => rw [h]; rfl
  | inr h => rw [h]; rfl

lemma jsOr_truthy (s : String) (b : String) (hs : s ≠ "") : jsOr (some s) b = s := by
  simp [jsOr, hs]

lemma selectCid_some (md : S3Metadata) :
    selectCid (some md) = jsOr md.cid (jsOr md.CID (jsOr md.Cid "")) := by
  simp [selectCid]

lemma trimStr_ne_of_ne (c : String) (h : trimStr c ≠ "") : c ≠ "" := by
  intro hc
  rw [hc] at h
  exact h rfl

lemma extractCid_found (md : S3Metadata) (c : String)
    (hsel : selectCid (some md) = c) (ht : trimStr c ≠ "") :
    extractCid (Except.ok (some md)) = some (trimStr c) := by
  have hc : c ≠ "" := trimStr_ne_of_ne c ht
  simp only [extractCid, hsel]
  rw [if_pos ⟨hc, length_pos_of_ne_empty _ ht⟩]

/-- C1 (amended): on every metadata response, the keys `cid`, `CID`, `Cid`
are checked in that fixed order, but the `||` chain selects the first
*non-empty* value (JS truthiness), not the first non-blank-after-trimming
one. When the selected value is non-blank after trimming, the poller returns
it trimmed immediately (elapsed 0, no sleeps). In particular a `cid` that is
absent or the empty string falls through to a non-blank `CID` (resp. `Cid`);
but a `cid` that is non-empty yet blank after trimming makes the whole
attempt fail, regardless of `CID`/`Cid`. -/
theorem cid_key_selection (backend : Nat → Except Unit (Option S3Metadata))
    (m : Nat) (md : S3Metadata) (hm : 0 < m)
    (h0 : backend 0 = Except.ok (some md)) :
    (∀ c, md.cid = some c → trimStr c ≠ "" →
      waitCidRun backend m = some ⟨some (trimStr c), 0, []⟩) ∧
    (∀ c, (md.cid = none ∨ md.cid = some "") → md.CID = some c → trimStr c ≠ "" →
      waitCidRun backend m = some ⟨some (trimStr c), 0, []⟩) ∧
    (∀ c, (md.cid = none ∨ md.cid = some "") → (md.CID = none ∨ md.CID = some "") →
      md.Cid = some c → trimStr c ≠ "" →
      waitCidRun backend m = some ⟨some (trimStr c), 0, []⟩) ∧
    (∀ c, md.cid = some c → c ≠ "" → trimStr c = "" →
      extractCid (backend 0) = none) := by
  refine ⟨?_, ?_, ?_, ?_⟩
  · intro c hcid ht
    refine waitCidRun_found_first backend m (trimStr c) hm ?_
    rw [h0]
    refine extractCid_found md c ?_ ht
    rw [selectCid_some, hcid]
    exact jsOr_truthy c _ (trimStr_ne_of_ne c ht)
  · intro c hcid hCID ht
    refine waitCidRun_found_first backend m (trimStr c) hm ?_
    rw [h0]
    refine extractCid_found md c ?_ ht
    rw [selectCid_some, jsOr_falsy _ _ hcid, hCID]
    exact jsOr_truthy c _ (trimStr_ne_of_ne c ht)
  · intro c hcid hCID hCid ht
    refine waitCidRun_found_first backend m (trimStr c) hm ?_
    rw [h0]
    refine extractCid_found md c ?_ ht
    rw [selectCid_some, jsOr_falsy _ _ hcid, jsOr_falsy _ _ hCID, hCid]
    exact jsOr_truthy c _ (trimStr_ne_of_ne c ht)
  · intro c hcid hc ht
    rw [h0]
    have hsel : selectCid (some md) = c := by
      rw [selectCid_some, hcid]
      exact jsOr_truthy c _ hc
    simp only [extractCid, hsel]
    rw [if_neg]
    intro hcond
    rw [ht] at hcond
    exact absurd hcond.2 (by decide)

/-- C1, counterexample to the claim as stated: with metadata
`{cid: " ", CID: "abc"}`, `cid` is blank after trimming and `CID` is
non-blank, yet the poller never returns `"abc"`: the truthy `" "` is
selected first, fails the trim test, and every attempt comes up empty, so
the run times out with `null`. -/
theorem cid_key_selection_cex :
    trimStr " " = "" ∧ trimStr "abc" = "abc" ∧
    waitCidWithBackoff (fun _ => Except.ok (some ⟨some " ", some "abc", none⟩)) 1000 = none := by
  refine ⟨by decide, by decide, by decide⟩

/-- Witness for `cid_key_selection` at concrete inputs: `cid` absent and
`CID = " abc "` yields `Found "abc"` immediately. -/
theorem cid_key_selection_witness :
    waitCidRun (fun _ => Except.ok (some ⟨none, some " abc ", none⟩)) 1000
      = some ⟨some (trimStr " abc "), 0, []⟩ :=
  (cid_key_selection (fun _ => Except.ok (some ⟨none, some " abc ", none⟩)) 1000
    ⟨none, some " abc ", none⟩ (by decide) rfl).2.1 " abc " (Or.inl rfl) rfl (by decide)

/-- C2: in every run of the poller, the `i`-th sleep equals `backoffSeq i`;
the schedule starts at 500, doubles after each failed attempt and caps at
4000, so it is 500, 1000, 2000, 4000, 4000, …; and no sleep happens before
the first attempt: a run whose first attempt succeeds sleeps zero times. -/
theorem poll_backoff_schedule (backend : Nat → Except Unit (Option S3Metadata))
    (maxWaitMs : Nat) (r : PollRun) (h : waitCidRun backend maxWaitMs = some r) :
    (∀ i (hi : i < r.sleeps.length), r.sleeps.get ⟨i, hi⟩ = backoffSeq i) ∧
    backoffSeq 0 = 500 ∧ backoffSeq 1 = 1000 ∧ backoffSeq 2 = 2000 ∧
    (∀ k, 3 ≤ k → backoffSeq k = 4000) ∧
    (∀ c, 0 < maxWaitMs → extractCid (backend 0) = some c → r.sleeps = []) := by
  refine ⟨?_, rfl, by decide, by decide, backoffSeq_of_ge_three, ?_⟩
  · intro i hi
    have h' : waitLoop backend maxWaitMs (maxWaitMs / 500 + 1) 0 0 (backoffSeq 0) = some r := h
    have hs := waitLoop_sleeps backend maxWaitMs (maxWaitMs / 500 + 1) 0 0 0 r h' i hi
    simpa using hs
  · intro c hm h0
    have hf := waitCidRun_found_first backend maxWaitMs c hm h0
    rw [hf] at h
    obtain rfl : PollRun.mk (some c) 0 [] = r := by injection h
    rfl

/-- Witness for `poll_backoff_schedule`: for a backend that never answers,
the second recorded sleep of the 1000 ms run equals `backoffSeq 1`. -/
theorem poll_backoff_schedule_witness :
    (PollRun.mk none 1500 [500, 1000]).sleeps.get ⟨1, by decide⟩ = backoffSeq 1 :=
  (poll_backoff_schedule (fun _ => Except.ok none) 1000 ⟨none, 1500, [500, 1000]⟩
    (by decide)).1 1 (by decide)

/-- C3: the poller terminates for every backend and budget (the loop always
reaches one of its two genuine exits within the supplied fuel); and when the
backend never yields a cid, it returns `TimedOut` (`null`) with total elapsed
time at least `maxWaitMs` and less than `maxWaitMs` plus one backoff interval
(an interval is at most the 4000 ms cap). The code offers no `maxAttempts`
option, so only the wall-clock bound can end the loop. -/
theorem poll_terminates (backend : Nat → Except Unit (Option S3Metadata)) (maxWaitMs : Nat) :
    (∃ r, waitCidRun backend maxWaitMs = some r) ∧
    ((∀ n, extractCid (backend n) = none) →
      ∃ r, waitCidRun backend maxWaitMs = some r ∧ r.result = none ∧
        waitCidWithBackoff backend maxWaitMs = none ∧
        maxWaitMs ≤ r.elapsed ∧ r.elapsed < maxWaitMs + 4000) := by
  constructor
  · exact waitLoop_total backend maxWaitMs _ 0 0 500 (by omega) (waitCid_fuel_arith maxWaitMs)
  · intro hfail
    obtain ⟨r, hr, hres, hlb, hub⟩ := waitLoop_timeout backend maxWaitMs hfail _ 0 0 500
      (by omega) (by omega) (waitCid_fuel_arith maxWaitMs) (by omega)
    refine ⟨r, hr, hres, ?_, hlb, hub⟩
    unfold waitCidWithBackoff
    rw [show waitCidRun backend maxWaitMs = some r from hr]
    exact hres

/-- Witness for `poll_terminates`: a backend that always answers with empty
metadata makes the 1000 ms poll resolve to `null`. -/
theorem poll_terminates_witness :
    waitCidWithBackoff (fun _ => Except.ok none) 1000 = none := by
  obtain ⟨r, hr, hres, hw, hlb, hub⟩ :=
    (poll_terminates (fun _ => Except.ok none) 1000).2 (fun n => by decide)
  exact hw

/-- C4: per-attempt failures are swallowed: replacing any single attempt's
thrown error by an empty-metadata response leaves the entire run unchanged,
and a backend whose every attempt throws makes the poller resolve to `null`
(TimedOut) for every budget — an error is never surfaced. -/
theorem poll_swallows_attempt_failures (backend : Nat → Except Unit (Option S3Metadata))
    (m n : Nat) :
    waitCidRun (fun k => if k = n then Except.error () else backend k) m
      = waitCidRun (fun k => if k = n then Except.ok none else backend k) m ∧
    (∀ e : Unit, waitCidWithBackoff (fun _ => Except.error e) m = none) := by
  constructor
  · unfold waitCidRun
    refine waitLoop_congr _ _ m (fun i => ?_) _ 0 0 500
    by_cases hi : i = n
    · simp only [if_pos hi]
      decide
    · simp only [if_neg hi]
  · intro e
    obtain ⟨r, hr, hres, hlb, hub⟩ := waitLoop_timeout (fun _ => Except.error e) m
      (fun k => rfl) _ 0 0 500 (by omega) (by omega) (waitCid_fuel_arith m) (by omega)
    unfold waitCidWithBackoff
    rw [show waitCidRun (fun _ => Except.error e) m = some r from hr]
    exact hres

lemma waitCid_found_ne_empty (backend : Nat → Except Unit (Option S3Metadata))
    (m : Nat) (c : String) (h : waitCidWithBackoff backend m = some c) : c ≠ "" := by
  unfold waitCidWithBackoff at h
  cases hr : waitCidRun backend m with
  | none => rw [hr] at h; exact absurd h (by simp)
  | some r =>
    rw [hr] at h
    exact waitLoop_found_ne_empty backend m _ 0 0 500 r c hr h

/-- C5: any `/upload` request whose `x-api-key` header is missing or differs
from the configured secret is answered 401 by `apiKeyGuard` before the
upload middleware runs, so no storage write is performed — whatever the
storage backend, write outcome or handler would have done. -/
theorem auth_failure_no_write (APIKEY : String) (req : UploadRequest)
    (write : Except JsError Unit) (handlerExn : Option JsError)
    (backend : Nat → Except Unit (Option S3Metadata))
    (h : req.xApiKey = none ∨ req.xApiKey ≠ some APIKEY) :
    processUpload APIKEY req write handlerExn backend = (⟨401, RespBody.authFail⟩, []) := by
  have hg : apiKeyGuard APIKEY req = true := by
    unfold apiKeyGuard
    cases h with
    | inl h => rw [h]; simp
    | inr h => simp [h]
  simp [processUpload, hg]

/-- Witness for `auth_failure_no_write`: a wrong key is rejected with no
write recorded. -/
theorem auth_failure_no_write_witness :
    processUpload "secret" ⟨some "wrong", some "a.png"⟩ (Except.ok ()) none
      (fun _ => Except.ok none) = (⟨401, RespBody.authFail⟩, []) :=
  auth_failure_no_write "secret" ⟨some "wrong", some "a.png"⟩ (Except.ok ()) none
    (fun _ => Except.ok none) (Or.inr (by decide))

/-- C6: response policy (b): for an authenticated upload whose write
succeeded and whose handler body throws nothing, the handler returns 200
with `{ data: { file, url } }` and `url` equal to the cid when the 45 s poll
finds one, and 504 with the same shape and `url = ""` when the budget is
exhausted without a cid. -/
theorem upload_response_policy (APIKEY : String) (req : UploadRequest)
    (backend : Nat → Except Unit (Option S3Metadata))
    (hauth : apiKeyGuard APIKEY req = false) :
    (∀ c, waitCidWithBackoff backend 45000 = some c →
      processUpload APIKEY req (Except.ok ()) none backend
        = (⟨200, RespBody.uploadData req.file c⟩, writesOf req)) ∧
    (waitCidWithBackoff backend 45000 = none →
      processUpload APIKEY req (Except.ok ()) none backend
        = (⟨504, RespBody.uploadData req.file ""⟩, writesOf req)) := by
  constructor
  · intro c hc
    have hne : c ≠ "" := waitCid_found_ne_empty backend 45000 c hc
    simp [processUpload, hauth, uploadHandler, hc, hne]
  · intro hc
    simp [processUpload, hauth, uploadHandler, hc]

/-- Witness for `upload_response_policy`: a first-attempt cid gives the 200
response carrying it; a backend that never answers gives the 504 response
with `url = ""`. -/
theorem upload_response_policy_witness :
    processUpload "k" ⟨some "k", some "f.png"⟩ (Except.ok ()) none
      (fun _ => Except.ok (some ⟨some "bafy", none, none⟩))
      = (⟨200, RespBody.uploadData (some "f.png") "bafy"⟩, ["f.png"]) ∧
    processUpload "k" ⟨some "k", some "f.png"⟩ (Except.ok ()) none
      (fun _ => Except.ok none)
      = (⟨504, RespBody.uploadData (some "f.png") ""⟩, ["f.png"]) := by
  constructor
  · have h := (upload_response_policy "k" ⟨some "k", some "f.png"⟩
      (fun _ => Except.ok (some ⟨some "bafy", none, none⟩)) (by decide)).1 "bafy" (by decide)
    simpa [writesOf] using h
  · have h := (upload_response_policy "k" ⟨some "k", some "f.png"⟩
      (fun _ => Except.ok none) (by decide)).2 (by decide)
    simpa [writesOf] using h

/-- C7: failures surface as 500 responses and nothing goes unanswered: a
failing storage write is turned by the global error handler into a 500
carrying the error's message (or "unknown_error" when the message is absent
or empty); an exception inside the handler's try block is turned by its
catch into a 500 the same way; and every request receives a response, whose
status is always one of 200, 401, 500, 504. -/
theorem upload_failures_become_500 (APIKEY : String) (req : UploadRequest)
    (backend : Nat → Except Unit (Option S3Metadata)) (e : JsError)
    (hauth : apiKeyGuard APIKEY req = false) :
    processUpload APIKEY req (Except.error e) none backend
      = (⟨500, RespBody.globalErr (errDesc e)⟩, []) ∧
    (processUpload APIKEY req (Except.ok ()) (some e) backend).1
      = ⟨500, RespBody.uploadErr (errDesc e)⟩ ∧
    (∀ msg, e.message = some msg → msg ≠ "" → errDesc e = msg) ∧
    (e.message = none → errDesc e = "unknown_error") ∧
    (∀ (write : Except JsError Unit) (hex : Option JsError)
      (K : String) (rq : UploadRequest),
      (processUpload K rq write hex backend).1.status = 200 ∨
      (processUpload K rq write hex backend).1.status = 401 ∨
      (processUpload K rq write hex backend).1.status = 500 ∨
      (processUpload K rq write hex backend).1.status = 504) := by
  refine ⟨?_, ?_, ?_, ?_, ?_⟩
  · simp [processUpload, hauth]
  · simp [processUpload, hauth]
  · intro msg hm hne
    simp [errDesc, hm, jsOr, hne]
  · intro hm
    simp [errDesc, hm, jsOr]
  · intro write hex K rq
    unfold processUpload uploadHandler
    repeat' split
    all_goals simp

/-- Witness for `upload_failures_become_500`: a failing write with message
"boom" produces the global 500 body. -/
theorem upload_failures_become_500_witness :
    processUpload "k" ⟨some "k", some "f"⟩ (Except.error ⟨some "boom"⟩) none
      (fun _ => Except.ok none)
      = (⟨500, RespBody.globalErr (errDesc ⟨some "boom"⟩)⟩, []) :=
  (upload_failures_become_500 "k" ⟨some "k", some "f"⟩ (fun _ => Except.ok none)
    ⟨some "boom"⟩ (by decide)).1

/-- C8 (amended): the naive `while (url == "")` loop is unbounded only when
the backend presents a `cid` key holding the empty string on every read —
then no amount of fuel makes it exit. When the `cid` key is absent
(`undefined`), the template-literal interpolation at app.ts:125 turns it
into the string `"undefined"`, so the loop exits on its very first
iteration and the handler responds with `url = "undefined"` instead of
blocking. -/
theorem naive_loop_unbounded (backend : Nat → Option String) :
    ((∀ n, backend n = some "") → ∀ attempt fuel, naiveLoop backend attempt fuel = none) ∧
    (∀ attempt fuel, backend attempt = none →
      naiveLoop backend attempt (fuel + 1) = some "undefined") := by
  constructor
  · intro hb attempt fuel
    induction fuel generalizing attempt with
    | zero => rfl
    | succ fuel ih =>
      simp only [naiveLoop, hb attempt, jsTemplate]
      rw [if_neg (by simp)]
      exact ih (attempt + 1)
  · intro attempt fuel hb
    simp only [naiveLoop, hb, jsTemplate]
    rw [if_pos (by decide)]

/-- C8, counterexample to the claim as stated: a backend on which the `cid`
metadata key is absent on every read makes the loop exit on its first
iteration with the string `"undefined"` — it does not block. -/
theorem naive_loop_unbounded_cex :
    naiveLoop (fun _ => none) 0 1 = some "undefined" := by decide

/-- Witness for `naive_loop_unbounded`: an always-empty-string cid keeps the
loop running past any fuel; an absent cid exits at once with "undefined". -/
theorem naive_loop_unbounded_witness :
    naiveLoop (fun _ => some "") 0 7 = none ∧
    naiveLoop (fun _ => none) 3 (0 + 1) = some "undefined" :=
  ⟨(naive_loop_unbounded (fun _ => some "")).1 (fun _ => rfl) 0 7,
   (naive_loop_unbounded (fun _ => none)).2 3 0 rfl⟩

/-- C9: in the naive variant, when `process.env.KEY1` is unset and the
request has no `x-api-key` header, the loose `!=` guard compares `undefined`
with `undefined`, finds them equal, and the request proceeds past
authentication into the wait loop instead of being rejected 401. -/
theorem naive_auth_bypass (file : Option String) (backend : Nat → Option String)
    (fuel : Nat) :
    naiveUploadHandler none ⟨none, file⟩ backend fuel ≠ NaiveOutcome.unauthorized ∧
    naiveUploadHandler none ⟨none, file⟩ backend fuel
      = (match naiveLoop backend 0 fuel with
         | some url => NaiveOutcome.responded url
         | none => NaiveOutcome.hung) := by
  have h : naiveUploadHandler none ⟨none, file⟩ backend fuel
      = (match naiveLoop backend 0 fuel with
         | some url => NaiveOutcome.responded url
         | none => NaiveOutcome.hung) := by
    unfold naiveUploadHandler
    rw [if_neg (by simp)]
  refine ⟨?_, h⟩
  rw [h]
  cases naiveLoop backend 0 fuel <;> simp

/-- C10: an empty configured key (`KEY1` unset, so `APIKEY = ""`) makes
`apiKeyGuard` fail closed: every request is rejected 401 with no storage
write, whatever `x-api-key` header is supplied — including the empty string
itself. -/
theorem empty_key_fails_closed (hdr file : Option String)
    (write : Except JsError Unit) (handlerExn : Option JsError)
    (backend : Nat → Except Unit (Option S3Metadata)) :
    apiKeyGuard "" ⟨hdr, file⟩ = true ∧
    processUpload "" ⟨hdr, file⟩ write handlerExn backend
      = (⟨401, RespBody.authFail⟩, []) := by
  have hg : apiKeyGuard "" ⟨hdr, file⟩ = true := by simp [apiKeyGuard]
  exact ⟨hg, by simp [processUpload, hg]⟩
